import Mathlib

/-!
# Verification of the OpenManus plan-execution engine

Shallow embedding of the plan execution engine of the `openmanus` package
(`executor.py`, `models/trace.py`, `tools/base.py`, `tools/file_tool.py`,
`tools/shell_tool.py`) and proofs about its behavioural claims.

Modelling conventions:
* Python JSON-like values (the `inputs` dicts of steps, tool `data`
  payloads) are modelled by the inductive type `Value`; Python dicts are
  ordered association lists keyed by strings, exactly as iterated by the
  source.
* Wall-clock timestamps and the sha256 input digest of a trace entry are
  elided: no claim mentions them and they do not influence control flow.
* Tool invocations and the operating system (filesystem, subprocess) are
  modelled by explicit state passing / abstract behaviour functions, so
  the control flow of the Python source becomes a pure total function.
-/

namespace OpenManus

/-- Python JSON-like value: the payloads flowing through step inputs and
tool outputs.  `Value.none` is Python's `None`. -/
inductive Value where
  | str (s : String)
  | int (n : Int)
  | bool (b : Bool)
  | none
  | list (xs : List Value)
  | dict (entries : List (String × Value))

/-- Python `d.get(k)` / `d[k]` lookup on a dict modelled as an ordered
association list. -/
def lookupD (entries : List (String × Value)) (k : String) : Option Value :=
  (entries.find? (fun e => e.1 = k)).map (fun e => e.2)

/-- Python `d[k] = v` on a string-keyed dict: replace the first binding of
`k` if present, otherwise append. -/
def insertD (entries : List (String × Value)) (k : String) (v : Value) :
    List (String × Value) :=
  match entries with
  | [] => [(k, v)]
  | (k', v') :: rest =>
      if k' = k then (k', v) :: rest else (k', v') :: insertD rest k v

/-- Python `"k" in d`. -/
def memD (entries : List (String × Value)) (k : String) : Bool :=
  (lookupD entries k).isSome

/-!
## Reference resolver — `Executor._resolve_inputs` (executor.py lines 136-183)

The source iterates over the items of the input dict.  A string value
beginning with `ref:step:` is split on `":"`; when there are at least
three parts the third one is taken as the step id and looked up in the
executor's `_step_outputs`; a recorded dict output with a `content` key
contributes its `content` value, any other recorded output is substituted
whole, and an unrecorded id leaves the string verbatim.  Nested dicts
recurse.  For a list element `v` that is a dict the source evaluates
`self._resolve_inputs({k: v})["k"]` — with the *literal* key `"k"` — which
raises `KeyError('k')` (whose `str` is `'k'`) whenever the enclosing key
`k` differs from the literal string `"k"`.  The `Except` monad models the
possible `KeyError`.
-/

/-- Python `s.split(sep)` for a one-character separator, over the
character list: split at every occurrence, `""` yielding `[""]`. -/
def splitChar (sep : Char) : List Char → List (List Char)
  | [] => [[]]
  | c :: rest =>
      match splitChar sep rest with
      | [] => [[c]]
      | g :: gs => if c = sep then [] :: g :: gs else (c :: g) :: gs

/-- Python `s.split(":")`. -/
def pySplitColon (s : String) : List String :=
  (splitChar ':' s.data).map (fun l => String.mk l)

/-- Python `s.startswith(p)`. -/
def pyStartsWith (s p : String) : Bool :=
  p.data.isPrefixOf s.data

/-- Resolution of one string value against recorded step outputs
(executor.py lines 148-170). -/
def resolveStr (outs : List (String × Value)) (s : String) : Value :=
  if pyStartsWith s "ref:step:" then
    match pySplitColon s with
    | _ :: _ :: stepId :: _ =>
        match lookupD outs stepId with
        | some stepOutput =>
            match stepOutput with
            | Value.dict d =>
                if memD d "content" then
                  match lookupD d "content" with
                  | some c => c
                  | Option.none => Value.dict d
                else Value.dict d
            | other => other
        | Option.none => Value.str s
    | _ => Value.str s
  else Value.str s

mutual

/-- Model of `Executor._resolve_inputs` on a whole input dict (executor.py 136-183). -/
def resolveInputs (outs : List (String × Value)) :
    List (String × Value) → Except String (List (String × Value))
  | [] => Except.ok []
  | (k, v) :: rest => do
      let r ← resolveEntry outs k v
      let rs ← resolveInputs outs rest
      pure ((k, r) :: rs)
termination_by structural l => l

/-- Resolution of one dict value (the body of the `for key, value` loop). -/
def resolveEntry (outs : List (String × Value)) (k : String) :
    Value → Except String Value
  | Value.str s => Except.ok (resolveStr outs s)
  | Value.dict entries => do
      let r ← resolveInputs outs entries
      pure (Value.dict r)
  | Value.list xs => do
      let r ← resolveList outs k xs
      pure (Value.list r)
  | v => Except.ok v
termination_by structural v => v

/-- The list comprehension of executor.py lines 176-179: a dict element is
resolved via `self._resolve_inputs({k: v})["k"]` (note the literal key
`"k"` being looked up — a `KeyError('k')`, printed `'k'`, escapes when the
enclosing key is not the string `"k"`); other elements pass through. -/
def resolveList (outs : List (String × Value)) (k : String) :
    List Value → Except String (List Value)
  | [] => Except.ok []
  | v :: rest => do
      let r ←
        match v with
        | Value.dict d => do
            let rd ← resolveInputs outs d
            -- `_resolve_inputs({k: v})` returns the singleton dict
            -- `{k: resolved v}`; it is then indexed with the literal `"k"`.
            match lookupD [(k, Value.dict rd)] "k" with
            | some x => Except.ok x
            | Option.none => Except.error "'k'"
        | other => Except.ok other
      let rs ← resolveList outs k rest
      pure (r :: rs)
termination_by structural l => l

end

/-!
## Trace model — `models/trace.py`

`StepStatus`, `TraceEntry` and `ExecutionResult` as the source defines
them, minus wall-clock timestamps and the sha256 `inputs_digest`, which no
claim mentions and which never influence control flow.
-/

/-- Model of `StepStatus` (trace.py lines 9-16). -/
inductive StepStatus where
  | PENDING
  | RUNNING
  | SUCCESS
  | FAILURE
  | SKIPPED
deriving DecidableEq, Repr

/-- Model of `TraceEntry` (trace.py lines 19-98): the fields that carry execution
state.  `inputs` holds the raw (pre-resolution) step inputs, exactly as
`executor.py` line 85 stores `step.inputs.copy()`. -/
structure TraceEntry where
  step_id : String
  tool : String
  status : StepStatus
  error : Option String := Option.none
  inputs : List (String × Value)
  outputs : Option Value := Option.none

/-- Model of `ExecutionResult` (trace.py lines 101-188), without the timestamp
fields. -/
structure ExecutionResult where
  plan_goal : String
  plan_risk_level : String
  total_steps : Nat
  successful_steps : Nat
  failed_steps : Nat
  skipped_steps : Nat
  overall_status : StepStatus
  traces : List TraceEntry
  error_summary : Option String := Option.none
  produced_files : List Value := []

/-- Model of `ExecutionResult.finalize` (trace.py lines 176-188): recompute the
three counters from the trace list, then derive the overall status. -/
def finalize (r : ExecutionResult) : ExecutionResult :=
  let failed := r.traces.countP (fun t => t.status = StepStatus.FAILURE)
  let successful := r.traces.countP (fun t => t.status = StepStatus.SUCCESS)
  let skipped := r.traces.countP (fun t => t.status = StepStatus.SKIPPED)
  { r with
    failed_steps := failed
    successful_steps := successful
    skipped_steps := skipped
    overall_status :=
      if failed > 0 then StepStatus.FAILURE
      else if successful = r.total_steps then StepStatus.SUCCESS
      else StepStatus.PENDING }

/-!
## Executor — `executor.py`

A `Step` carries an id, a tool name and an input dict (`models/plan.py`);
the plan-level metadata the result records is the goal and the risk
level.  A tool's behaviour is an abstract function from the resolved
input dict to either a returned `ToolOutput` or a raised exception
(message of `str(e)`), covering every `Tool.execute` implementation; the
registry maps tool names to behaviours (`ToolRegistry`, base.py).

Persisting `plan.json` / `trace.jsonl` to the run directory is disk I/O
with no influence on the returned `ExecutionResult` and is elided.
-/

/-- Model of `ToolOutput` (tools/base.py lines 14-19): `data` is a dict, a string
or `None` — all covered by `Value`. -/
structure ToolOutput where
  success : Bool
  data : Value
  error : Option String := Option.none

/-- Outcome of calling `tool.execute(resolved_inputs)`: a returned
`ToolOutput`, or an exception with message `str(e)`. -/
inductive ToolResult where
  | ret (output : ToolOutput)
  | exn (msg : String)

/-- A tool's behaviour on resolved inputs. -/
def ToolBehavior : Type := List (String × Value) → ToolResult

/-- Model of `ToolRegistry` contents: name-keyed tools; `get` is first-match
lookup (base.py lines 92-101). -/
def Registry : Type := List (String × ToolBehavior)

/-- Model of `ToolRegistry.get`. -/
def lookupReg (reg : Registry) (name : String) : Option ToolBehavior :=
  (reg.find? (fun e => e.1 = name)).map (fun e => e.2)

/-- Model of `Step` (models/plan.py): the fields the executor reads. -/
structure Step where
  id : String
  tool : String
  inputs : List (String × Value)

/-- Model of `Plan` (models/plan.py): the fields the executor reads. -/
structure Plan where
  goal : String
  riskLevel : String
  steps : List Step

/-- Python truthiness of the values a tool `data` payload can take. -/
def isTruthy : Value → Bool
  | Value.str s => s ≠ ""
  | Value.int n => n ≠ 0
  | Value.bool b => b
  | Value.none => false
  | Value.list xs => !xs.isEmpty
  | Value.dict d => !d.isEmpty

/-- Model of `output.data or {}` in `mark_success` (executor.py line 112). -/
def dataOrEmpty (d : Value) : Value :=
  if isTruthy d then d else Value.dict []

/-- Model of `output.error or "Unknown error"` (executor.py line 119). -/
def errorOrUnknown : Option String → String
  | some e => if e = "" then "Unknown error" else e
  | Option.none => "Unknown error"

/-- The produced-files update of executor.py lines 114-117: when the
output data is a truthy dict with a `path` key, that path is appended. -/
def producedOf (d : Value) : Option Value :=
  match d with
  | Value.dict entries =>
      if isTruthy (Value.dict entries) then lookupD entries "path"
      else Option.none
  | _ => Option.none

/-- Result of processing one step inside the `for` loop of
`execute_plan`: the finished trace entry, the optional
`_step_outputs[step.id] = output.data` recording, the optional
produced-file path, and whether the loop `break`s. -/
structure StepRes where
  trace : TraceEntry
  record : Option (String × Value)
  produced : Option Value
  halt : Bool

/-- A trace entry marked failed (`mark_failure`). -/
def failTrace (step : Step) (e : String) : TraceEntry :=
  { step_id := step.id, tool := step.tool, status := StepStatus.FAILURE,
    error := some e, inputs := step.inputs }

/-- A trace entry marked successful (`mark_success`). -/
def successTrace (step : Step) (outputs : Value) : TraceEntry :=
  { step_id := step.id, tool := step.tool, status := StepStatus.SUCCESS,
    inputs := step.inputs, outputs := some outputs }

/-- The non-dry-run body of the `for` loop of `execute_plan`
(executor.py lines 94-126): resolve the inputs (a raised `KeyError` is
caught by the `except` clause), look the tool up (`None` raises
`ValueError`), invoke it, record `output.data` under the step id, then
mark the trace and `break` on failure. -/
def execStep (reg : Registry) (souts : List (String × Value)) (step : Step) :
    StepRes :=
  match resolveInputs souts step.inputs with
  | Except.error e =>
      ⟨failTrace step e, Option.none, Option.none, true⟩
  | Except.ok resolved =>
      match lookupReg reg step.tool with
      | Option.none =>
          ⟨failTrace step ("Tool '" ++ step.tool ++ "' not found in registry"),
            Option.none, Option.none, true⟩
      | some behavior =>
          match behavior resolved with
          | ToolResult.exn msg =>
              ⟨failTrace step msg, Option.none, Option.none, true⟩
          | ToolResult.ret output =>
              if output.success then
                ⟨successTrace step (dataOrEmpty output.data),
                  some (step.id, output.data), producedOf output.data, false⟩
              else
                ⟨failTrace step (errorOrUnknown output.error),
                  some (step.id, output.data), Option.none, true⟩

/-- The dry-run body of the loop (executor.py lines 89-92). -/
def execStepDry (step : Step) : StepRes :=
  ⟨successTrace step (Value.dict [("dry_run", Value.bool true)]),
    some (step.id, Value.dict [("dry_run", Value.bool true)]),
    Option.none, false⟩

/-- Apply the optional `_step_outputs[step.id] = output.data` update. -/
def applyRecord (souts : List (String × Value)) :
    Option (String × Value) → List (String × Value)
  | Option.none => souts
  | some (k, v) => insertD souts k v

/-- The `for` loop of `execute_plan` over the remaining steps: returns
the trace entries, the final `_step_outputs`, and the produced files. -/
def execSteps (reg : Registry) (dryRun : Bool) :
    List Step → List (String × Value) →
    List TraceEntry × List (String × Value) × List Value
  | [], souts => ([], souts, [])
  | step :: rest, souts =>
      let r := if dryRun then execStepDry step else execStep reg souts step
      let souts' := applyRecord souts r.record
      if r.halt then ([r.trace], souts', r.produced.toList)
      else
        let (ts, so, ps) := execSteps reg dryRun rest souts'
        (r.trace :: ts, so, r.produced.toList ++ ps)

/-- Model of `Executor.execute_plan` (executor.py lines 49-134): build the result
shell, run the loop, finalize.  `souts` is the executor's persistent
`_step_outputs` dictionary — created once in `__init__` (line 42) and
never cleared, it is threaded in and out of the call. -/
def executePlan (reg : Registry) (souts : List (String × Value))
    (plan : Plan) (dryRun : Bool) :
    ExecutionResult × List (String × Value) :=
  let r := execSteps reg dryRun plan.steps souts
  (finalize
    { plan_goal := plan.goal
      plan_risk_level := plan.riskLevel
      total_steps := plan.steps.length
      successful_steps := 0
      failed_steps := 0
      skipped_steps := 0
      overall_status := StepStatus.PENDING
      traces := r.1
      produced_files := r.2.2 }, r.2.1)

/-!
## Python string helpers shared by the tool models

`pyRepr`/`pyStr` model Python's `repr`/`str` for the `Value` shapes that
reach error-message f-strings.  String escaping inside `repr` is not
reproduced (no claim touches it); scalars are exact.
-/

mutual

/-- Python `repr` of a JSON-like value (quotes around strings). -/
def pyRepr : Value → String
  | Value.str s => "'" ++ s ++ "'"
  | Value.int n => toString n
  | Value.bool b => if b then "True" else "False"
  | Value.none => "None"
  | Value.list xs => "[" ++ String.intercalate ", " (pyReprList xs) ++ "]"
  | Value.dict d => "\x7b" ++ String.intercalate ", " (pyReprDict d) ++ "\x7d"
termination_by structural v => v

/-- Model of `repr` of the elements of a list. -/
def pyReprList : List Value → List String
  | [] => []
  | v :: rest => pyRepr v :: pyReprList rest
termination_by structural l => l

/-- Model of `repr` of the items of a dict. -/
def pyReprDict : List (String × Value) → List String
  | [] => []
  | (k, v) :: rest => ("'" ++ k ++ "': " ++ pyRepr v) :: pyReprDict rest
termination_by structural l => l

end

/-- Python `str` of a JSON-like value (top-level strings unquoted), as
interpolated by f-strings. -/
def pyStr : Value → String
  | Value.str s => s
  | v => pyRepr v

/-- Python `str(inputs.get("action"))` as it appears in the
unknown-action message: a missing key prints `None`. -/
def pyStrOpt : Option Value → String
  | Option.none => "None"
  | some v => pyStr v

/-- Byte count of one character under UTF-8 — Python
`len(c.encode("utf-8"))`.  `Char` excludes surrogates, so the standard
width table applies. -/
def utf8CharSize (c : Char) : Nat :=
  if c.toNat < 0x80 then 1
  else if c.toNat < 0x800 then 2
  else if c.toNat < 0x10000 then 3
  else 4

/-- Python `len(s.encode("utf-8"))`. -/
def utf8Len (s : String) : Nat :=
  (s.data.map utf8CharSize).sum

/-!
## FileTool — `tools/file_tool.py`

Paths are modelled as absolute component lists (`PathC`); the workspace
root is already resolved (`__init__` line 25).  The OS-level resolution
performed by `(self.workspace_root / path).resolve()` — absolute-path
handling, `..` normalisation and symlink resolution — is abstracted into
a function `resolve : String → PathC` from the requested path string to
the resolved absolute path, which the claims quantify over.  The
filesystem is an explicit association list from paths to nodes, and each
operation reports the list of filesystem accesses it performed, so
"no filesystem access occurs" is expressible.
-/

/-- A resolved absolute path, as its list of components. -/
abbrev PathC := List String

/-- A filesystem node: a regular file with text content, or a directory. -/
inductive FsNode where
  | file (content : String)
  | dir
deriving DecidableEq

/-- Filesystem state: path-keyed nodes. -/
abbrev FS := List (PathC × FsNode)

/-- A filesystem access performed by the tool. -/
inductive FsOp where
  | readOp (p : PathC)
  | writeOp (p : PathC)
  | mkdirOp (p : PathC)
  | statOp (p : PathC)
deriving DecidableEq

/-- Node lookup. -/
def fsFind (fs : FS) (p : PathC) : Option FsNode :=
  (fs.find? (fun e => e.1 = p)).map (fun e => e.2)

/-- Store a node at a path (replace or append). -/
def fsSet (fs : FS) (p : PathC) (n : FsNode) : FS :=
  match fs with
  | [] => [(p, n)]
  | (q, m) :: rest => if q = p then (q, n) :: rest else (q, m) :: fsSet rest p n

/-- Model of `path.parent.mkdir(parents=True, exist_ok=True)`: ensure every
ancestor of `parent` (and `parent` itself) exists as a directory. -/
def fsMkdirParents (fs : FS) (parent : PathC) : FS :=
  (List.range parent.length).foldl
    (fun acc i =>
      let q := parent.take (i + 1)
      match fsFind acc q with
      | Option.none => fsSet acc q FsNode.dir
      | some _ => acc)
    fs

/-- Model of `str(PosixPath(p))` for an absolute path. -/
def joinPath (p : PathC) : String :=
  "/" ++ String.intercalate "/" p

/-- The confinement rejection message of `_resolve_path`
(file_tool.py lines 77-79). -/
def outsideMsg (p : String) (root : PathC) : String :=
  "Path '" ++ p ++ "' is outside workspace root '" ++ joinPath root ++ "'"

/-- Model of `FileTool._resolve_path` (file_tool.py lines 59-81): resolve, then
accept exactly when `resolved.relative_to(workspace_root)` succeeds,
i.e. when the root's components form a prefix of the resolved path. -/
def resolvePathF (resolve : String → PathC) (root : PathC) (p : String) :
    Except String PathC :=
  if root.isPrefixOf (resolve p) then Except.ok (resolve p)
  else Except.error (outsideMsg p root)

mutual

/-- fnmatch-style glob matching on names (`fnmatch.fnmatch`, used by
`_list_dir`): `*`, `?`, `[set]` with ranges and `!` negation, literal
characters. -/
def globMatch : List Char → List Char → Bool
  | [], [] => true
  | [], _ :: _ => false
  | '*' :: pr, [] => globMatch pr []
  | '*' :: pr, c :: sr => globMatch pr (c :: sr) || globMatch ('*' :: pr) sr
  | '?' :: pr, _ :: sr => globMatch pr sr
  | '?' :: _, [] => false
  | '[' :: '!' :: pr, c :: sr => globClass c false true pr sr
  | '[' :: pr, c :: sr => globClass c false false pr sr
  | '[' :: _, [] => false
  | p :: pr, c :: sr => p = c && globMatch pr sr
  | _ :: _, [] => false
termination_by pat s => pat.length + s.length

/-- Scan a `[...]` character class: `matched` accumulates whether `c` is
in the set, `neg` records a leading `!`; at the closing `]` matching
resumes on the rest of the pattern. -/
def globClass (c : Char) (matched neg : Bool) : List Char → List Char → Bool
  | [], _ => false
  | ']' :: rem, sr => if matched ≠ neg then globMatch rem sr else false
  | lo :: '-' :: hi :: rest, sr =>
      if hi = ']' then globClass c (matched || decide (lo = c) || decide ('-' = c)) neg (hi :: rest) sr
      else globClass c (matched || decide (lo ≤ c ∧ c ≤ hi)) neg rest sr
  | x :: rest, sr => globClass c (matched || decide (x = c)) neg rest sr
termination_by pat s => pat.length + s.length

end

/-- Model of `fnmatch.fnmatch(name, pattern)`. -/
def fnmatch (name pattern : String) : Bool :=
  globMatch pattern.data name.data

/-- Model of `FileTool._read_text` (file_tool.py lines 83-112).  Confinement runs
before the read; distinct OS error conditions map to distinct error
messages.  A non-string `path` raises `TypeError` inside the `try` and
surfaces through the generic `except` clause (exact exception text not
reproduced). -/
def fileRead (resolve : String → PathC) (root : PathC) (fs : FS)
    (inputs : List (String × Value)) : ToolOutput × FS × List FsOp :=
  match lookupD inputs "path" with
  | Option.none => (⟨false, Value.none, some "Missing 'path' in inputs"⟩, fs, [])
  | some (Value.str p) =>
      match resolvePathF resolve root p with
      | Except.error e => (⟨false, Value.none, some e⟩, fs, [])
      | Except.ok rp =>
          match fsFind fs rp with
          | some (FsNode.file c) =>
              (⟨true, Value.dict [("content", Value.str c),
                                  ("path", Value.str (joinPath rp))],
                Option.none⟩, fs, [FsOp.readOp rp])
          | some FsNode.dir =>
              (⟨false, Value.none,
                some ("Path is a directory, not a file: " ++ p)⟩, fs,
                [FsOp.readOp rp])
          | Option.none =>
              (⟨false, Value.none, some ("File not found: " ++ p)⟩, fs,
                [FsOp.readOp rp])
  | some _ => (⟨false, Value.none, some "Error reading file: invalid path type"⟩, fs, [])

/-- Whether a `mode` value passes `mode in ("overwrite", "append")`. -/
def validMode : Value → Bool
  | Value.str s => s = "overwrite" || s = "append"
  | _ => false

/-- Whether the effective mode is `"append"`. -/
def isAppendMode : Value → Bool
  | Value.str s => s = "append"
  | _ => false

/-- Model of `FileTool._write_text` (file_tool.py lines 114-161): key and mode
validation, confinement, parent-directory creation, then the write; the
reported `bytes_written` is `len(content.encode("utf-8"))`.  A non-string
`content` raises at the write call, after `mkdir`, and surfaces through
the generic `except` clause. -/
def fileWrite (resolve : String → PathC) (root : PathC) (fs : FS)
    (inputs : List (String × Value)) : ToolOutput × FS × List FsOp :=
  match lookupD inputs "path" with
  | Option.none => (⟨false, Value.none, some "Missing 'path' in inputs"⟩, fs, [])
  | some pv =>
      match lookupD inputs "content" with
      | Option.none => (⟨false, Value.none, some "Missing 'content' in inputs"⟩, fs, [])
      | some cv =>
          let mode := (lookupD inputs "mode").getD (Value.str "overwrite")
          if !validMode mode then
            (⟨false, Value.none,
              some ("Invalid mode: " ++ pyStr mode ++
                ". Must be 'overwrite' or 'append'")⟩, fs, [])
          else
            match pv with
            | Value.str p =>
                match resolvePathF resolve root p with
                | Except.error e => (⟨false, Value.none, some e⟩, fs, [])
                | Except.ok rp =>
                    let parent := rp.dropLast
                    let fs₁ := fsMkdirParents fs parent
                    match cv with
                    | Value.str content =>
                        match fsFind fs₁ rp with
                        | some FsNode.dir =>
                            (⟨false, Value.none,
                              some "Error writing file: is a directory"⟩,
                              fs₁, [FsOp.mkdirOp parent, FsOp.writeOp rp])
                        | old =>
                            let newContent :=
                              if isAppendMode mode then
                                (match old with
                                 | some (FsNode.file prev) => prev ++ content
                                 | _ => content)
                              else content
                            (⟨true, Value.dict
                                [("path", Value.str (joinPath rp)),
                                 ("bytes_written", Value.int (utf8Len content))],
                              Option.none⟩,
                              fsSet fs₁ rp (FsNode.file newContent),
                              [FsOp.mkdirOp parent, FsOp.writeOp rp])
                    | _ =>
                        (⟨false, Value.none,
                          some "Error writing file: invalid content type"⟩,
                          fs₁, [FsOp.mkdirOp parent])
            | _ => (⟨false, Value.none, some "Error writing file: invalid path type"⟩, fs, [])

/-- The `entries` listing of `_list_dir` (file_tool.py lines 188-199):
direct children of `rp` whose names match the pattern, each rendered as
the dict the source builds (`size` is the byte length for files, `None`
for directories). -/
def listEntries (root : PathC) (fs : FS) (rp : PathC) (pattern : String) :
    List Value :=
  fs.filterMap (fun e =>
    match e with
    | (q, node) =>
        if q.length = rp.length + 1 ∧ rp.isPrefixOf q ∧
            fnmatch (q.getLastD "") pattern then
          some (Value.dict
             [("name", Value.str (q.getLastD "")),
              ("path", Value.str (String.intercalate "/" (q.drop root.length))),
              ("is_dir", Value.bool (node = FsNode.dir)),
              ("is_file", Value.bool (node ≠ FsNode.dir)),
              ("size", match node with
                       | FsNode.file c => Value.int (utf8Len c)
                       | FsNode.dir => Value.none)])
        else Option.none)

/-- Model of `FileTool._list_dir` (file_tool.py lines 163-212): confinement, the
`is_dir` check (false both for a file and for a missing path), then the
filtered listing. -/
def fileList (resolve : String → PathC) (root : PathC) (fs : FS)
    (inputs : List (String × Value)) : ToolOutput × FS × List FsOp :=
  match lookupD inputs "path" with
  | Option.none => (⟨false, Value.none, some "Missing 'path' in inputs"⟩, fs, [])
  | some (Value.str p) =>
      match resolvePathF resolve root p with
      | Except.error e => (⟨false, Value.none, some e⟩, fs, [])
      | Except.ok rp =>
          match fsFind fs rp with
          | some FsNode.dir =>
              match (lookupD inputs "pattern").getD (Value.str "*") with
              | Value.str pattern =>
                  let entries := listEntries root fs rp pattern
                  (⟨true, Value.dict
                      [("path", Value.str (joinPath rp)),
                       ("entries", Value.list entries),
                       ("count", Value.int entries.length)],
                    Option.none⟩, fs, [FsOp.statOp rp])
              | _ =>
                  (⟨false, Value.none,
                    some "Error listing directory: invalid pattern type"⟩,
                    fs, [FsOp.statOp rp])
          | _ =>
              (⟨false, Value.none,
                some ("Path is not a directory: " ++ p)⟩, fs, [FsOp.statOp rp])
  | some _ => (⟨false, Value.none, some "Error listing directory: invalid path type"⟩, fs, [])

/-- Model of `FileTool.execute` (file_tool.py lines 32-57): dispatch on `action`. -/
def fileExecute (resolve : String → PathC) (root : PathC) (fs : FS)
    (inputs : List (String × Value)) : ToolOutput × FS × List FsOp :=
  match lookupD inputs "action" with
  | some (Value.str "read_text") => fileRead resolve root fs inputs
  | some (Value.str "write_text") => fileWrite resolve root fs inputs
  | some (Value.str "list_dir") => fileList resolve root fs inputs
  | a =>
      (⟨false, Value.none,
        some ("Unknown action: " ++ pyStrOpt a ++
          ". Valid actions: read_text, write_text, list_dir")⟩, fs, [])

/-!
## ShellTool — `tools/shell_tool.py`

`shlex.split(cmd)` (CPython's `shlex` in POSIX mode with
`whitespace_split=True` and comments disabled) is modelled as a state
machine over the character list: whitespace separates tokens; `'...'`
and `"..."` quote; a backslash escapes the next character, and inside
double quotes it escapes only `"` and `\` (otherwise kept literally);
an unterminated quote raises `ValueError("No closing quotation")` and a
trailing escape raises `ValueError("No escaped character")`.

The subprocess launch is abstracted into a `runner` function from the
command string and the timeout value to an outcome (completion with
captured stdout/stderr/exit code, a timeout, or a raised exception).
-/

/-- Tokenizer state: between tokens, inside a word, inside a quote, or
just after an escape character (`back` is the quote to return to, if the
escape occurred inside double quotes). -/
inductive LexState where
  | ws
  | word
  | quote (q : Char)
  | esc (back : Option Char)

/-- Model of `shlex` whitespace characters. -/
def isShWs (c : Char) : Bool :=
  c = ' ' || c = '\t' || c = '\r' || c = '\n'

/-- The `shlex` read loop.  `tok` is the current token (reversed),
`quoted` whether it passed through quotes, `acc` the emitted tokens
(reversed). -/
def shlexRun : List Char → LexState → List Char → Bool → List String →
    Except String (List String)
  | [], st, tok, quoted, acc =>
      match st with
      | LexState.quote _ => Except.error "No closing quotation"
      | LexState.esc _ => Except.error "No escaped character"
      | _ =>
          if !tok.isEmpty || quoted then
            Except.ok ((String.mk tok.reverse :: acc).reverse)
          else Except.ok acc.reverse
  | c :: rest, LexState.ws, tok, quoted, acc =>
      if isShWs c then shlexRun rest LexState.ws tok quoted acc
      else if c = '\\' then shlexRun rest (LexState.esc Option.none) tok quoted acc
      else if c = '\'' || c = '"' then shlexRun rest (LexState.quote c) tok quoted acc
      else shlexRun rest LexState.word (c :: tok) quoted acc
  | c :: rest, LexState.word, tok, quoted, acc =>
      if isShWs c then
        if !tok.isEmpty || quoted then
          shlexRun rest LexState.ws [] false (String.mk tok.reverse :: acc)
        else shlexRun rest LexState.ws tok quoted acc
      else if c = '\'' || c = '"' then shlexRun rest (LexState.quote c) tok quoted acc
      else if c = '\\' then shlexRun rest (LexState.esc Option.none) tok quoted acc
      else shlexRun rest LexState.word (c :: tok) quoted acc
  | c :: rest, LexState.quote q, tok, _, acc =>
      if c = q then shlexRun rest LexState.word tok true acc
      else if q = '"' && c = '\\' then
        shlexRun rest (LexState.esc (some '"')) tok true acc
      else shlexRun rest (LexState.quote q) (c :: tok) true acc
  | c :: rest, LexState.esc back, tok, quoted, acc =>
      match back with
      | some q =>
          if c ≠ '\\' && c ≠ q then
            shlexRun rest (LexState.quote q) (c :: '\\' :: tok) quoted acc
          else shlexRun rest (LexState.quote q) (c :: tok) quoted acc
      | Option.none => shlexRun rest LexState.word (c :: tok) quoted acc

/-- Model of `shlex.split(cmd)` (shell_tool.py line 80). -/
def shlexSplit (s : String) : Except String (List String) :=
  shlexRun s.data LexState.ws [] false []

/-- Outcome of `subprocess.run(cmd, shell=True, capture_output=True,
text=True, timeout=timeout, check=False)`. -/
inductive ProcResult where
  | completed (stdout stderr : String) (returncode : Int)
  | timedOut
  | raised (msg : String)

/-- ASCII lowering — `cmd.lower()` as exercised by the all-ASCII
dangerous patterns. -/
def pyLower (s : String) : String :=
  String.mk (s.data.map Char.toLower)

/-- Substring containment at some suffix start. -/
def containsAux (needle : List Char) : List Char → Bool
  | [] => needle.isEmpty
  | c :: rest => needle.isPrefixOf (c :: rest) || containsAux needle rest

/-- Substring containment — Python `pattern in cmd_lower`. -/
def pyContains (hay needle : String) : Bool :=
  containsAux needle.data hay.data

/-- The fixed dangerous substring list (shell_tool.py lines 106-113). -/
def dangerousPatterns : List String :=
  ["rm -rf /", "rm -rf /*", "> /", "dd if=", "mkfs", ":()\x7b:|:&\x7d;:"]

/-- Code-point lexicographic `≤` on strings, as Python compares them. -/
def charListLe : List Char → List Char → Bool
  | [], _ => true
  | _ :: _, [] => false
  | a :: as, b :: bs => if a = b then charListLe as bs else decide (a < b)

/-- Insertion into a sorted string list. -/
def insertSorted (s : String) : List String → List String
  | [] => [s]
  | t :: rest =>
      if charListLe s.data t.data then s :: t :: rest else t :: insertSorted s rest

/-- Python `sorted` on strings (code-point order). -/
def sortStrings (l : List String) : List String :=
  l.foldr insertSorted []

/-- The f-string rendering of `sorted(self.whitelist)` in the not-allowed
message (quote escaping inside names not reproduced). -/
def pyStrList (xs : List String) : String :=
  "[" ++ String.intercalate ", " (xs.map (fun s => "'" ++ s ++ "'")) ++ "]"

/-- Model of `ShellTool.execute` (shell_tool.py lines 60-156).  Returns the
`ToolResult` (normally a returned `ToolOutput`; a non-string `cmd` makes
`shlex.split` raise an uncaught `AttributeError`) together with whether
`subprocess.run` was invoked. -/
def shellExecute (whitelist blacklist : List String)
    (runner : String → Value → ProcResult)
    (inputs : List (String × Value)) : ToolResult × Bool :=
  match lookupD inputs "cmd" with
  | Option.none =>
      (ToolResult.ret ⟨false, Value.none, some "Missing 'cmd' in inputs"⟩, false)
  | some (Value.str cmd) =>
      let timeout := (lookupD inputs "timeout").getD (Value.int 30)
      match shlexSplit cmd with
      | Except.error e =>
          (ToolResult.ret ⟨false, Value.none,
            some ("Invalid command syntax: " ++ e)⟩, false)
      | Except.ok [] =>
          (ToolResult.ret ⟨false, Value.none, some "Empty command"⟩, false)
      | Except.ok (base :: _) =>
          if base ∈ blacklist then
            (ToolResult.ret ⟨false, Value.none,
              some ("Command '" ++ base ++ "' is not allowed (blacklisted)")⟩,
              false)
          else if base ∉ whitelist then
            (ToolResult.ret ⟨false, Value.none,
              some ("Command '" ++ base ++ "' is not in the allowed list: " ++
                pyStrList (sortStrings whitelist))⟩, false)
          else
            match dangerousPatterns.find? (fun pat => pyContains (pyLower cmd) pat) with
            | some pat =>
                (ToolResult.ret ⟨false, Value.none,
                  some ("Command contains dangerous pattern: " ++ pat)⟩, false)
            | Option.none =>
                match runner cmd timeout with
                | ProcResult.completed out err rc =>
                    (ToolResult.ret ⟨rc == 0,
                      Value.dict [("stdout", Value.str out),
                                  ("stderr", Value.str err),
                                  ("return_code", Value.int rc),
                                  ("command", Value.str cmd)],
                      if rc ≠ 0 then some err else Option.none⟩, true)
                | ProcResult.timedOut =>
                    (ToolResult.ret ⟨false, Value.none,
                      some ("Command timed out after " ++ pyStr timeout ++
                        " seconds")⟩, true)
                | ProcResult.raised msg =>
                    (ToolResult.ret ⟨false, Value.none,
                      some ("Error executing command: " ++ msg)⟩, true)
  | some _ =>
      (ToolResult.exn "shlex.split: cmd is not a string", false)

/-!
## Execution-state bookkeeping used by the loop theorems
-/

/-- The executor's `_step_outputs` dictionary as it stands when the loop
reaches step `i` (0-based), starting from `souts`. -/
def stateAt (reg : Registry) : List Step → List (String × Value) → Nat →
    List (String × Value)
  | _, souts, 0 => souts
  | [], souts, _ + 1 => souts
  | s :: rest, souts, i + 1 =>
      stateAt reg rest (applyRecord souts (execStep reg souts s).record) i

/-!
## Concrete fixtures for counterexamples and witnesses
-/

/-- A tool that always returns a failed output. -/
def alwaysFail : ToolBehavior :=
  fun _ => ToolResult.ret ⟨false, Value.none, some "boom"⟩

/-- A tool that always succeeds with no data. -/
def alwaysOk : ToolBehavior :=
  fun _ => ToolResult.ret ⟨true, Value.none, Option.none⟩

/-- A tool that raises. -/
def alwaysThrow : ToolBehavior := fun _ => ToolResult.exn "kaboom"

/-- A tool that succeeds returning `{content: "Hello"}`. -/
def helloTool : ToolBehavior :=
  fun _ => ToolResult.ret ⟨true, Value.dict [("content", Value.str "Hello")], Option.none⟩

/-- A tool that succeeds echoing its resolved inputs as its data. -/
def echoTool : ToolBehavior :=
  fun resolved => ToolResult.ret ⟨true, Value.dict resolved, Option.none⟩

/-- Registry with one always-failing tool. -/
def regFail : Registry := [("t", alwaysFail)]

/-- A two-step plan whose first step fails. -/
def planTwo : Plan := ⟨"g", "low", [⟨"1", "t", []⟩, ⟨"2", "t", []⟩]⟩

/-- Registry with a succeeding and a failing tool. -/
def regMix : Registry := [("ok", alwaysOk), ("fail", alwaysFail), ("boom", alwaysThrow)]

/-- A three-step plan: success, failure, then a step that never runs. -/
def planMix : Plan := ⟨"g", "low", [⟨"1", "ok", []⟩, ⟨"2", "fail", []⟩, ⟨"3", "ok", []⟩]⟩

/-- Registry for the cross-plan leak scenario. -/
def regLeak : Registry := [("t", helloTool), ("echo", echoTool)]

/-- First plan of the leak scenario: one step, id `1`, recording
`{content: "Hello"}`. -/
def planLeakA : Plan := ⟨"plan A", "low", [⟨"1", "t", []⟩]⟩

/-- Second plan of the leak scenario: references `ref:step:1`, an id
that belongs to the previous plan. -/
def planLeakB : Plan :=
  ⟨"plan B", "low", [⟨"2", "echo", [("x", Value.str "ref:step:1")]⟩]⟩

/-- A single-step plan whose step fails. -/
def planOneFail : Plan := ⟨"g", "low", [⟨"1", "t", []⟩]⟩

/-- A resolution function sending every path outside the workspace. -/
def resolveEvil : String → PathC := fun _ => ["etc", "passwd"]

/-- A resolution function placing every path directly under `/ws`. -/
def resolveW : String → PathC := fun p => ["ws", p]

/-- A workspace filesystem with just the root directory. -/
def fsW : FS := [(["ws"], FsNode.dir)]

/-- A subprocess model completing with exit code 1. -/
def runnerExit1 : String → Value → ProcResult :=
  fun _ _ => ProcResult.completed "out" "err" 1

/-- A subprocess model that times out. -/
def runnerTimeout : String → Value → ProcResult := fun _ _ => ProcResult.timedOut

/-!
## Theorems

Helper lemmas first, then one theorem per behavioural claim (with a
closed witness where the claim theorem carries hypotheses).
-/

/-- In non-dry-run mode a step's loop iteration either continues with a
SUCCESS trace or breaks with a FAILURE trace. -/
theorem execStep_halt_status (reg : Registry) (souts : List (String × Value))
    (step : Step) :
    ((execStep reg souts step).halt = false ∧
      (execStep reg souts step).trace.status = StepStatus.SUCCESS) ∨
    ((execStep reg souts step).halt = true ∧
      (execStep reg souts step).trace.status = StepStatus.FAILURE) := by
  unfold execStep
  split
  · right; exact ⟨rfl, rfl⟩
  · split
    · right; exact ⟨rfl, rfl⟩
    · split
      · right; exact ⟨rfl, rfl⟩
      · split
        · left; exact ⟨rfl, rfl⟩
        · right; exact ⟨rfl, rfl⟩

/-- Shape of the non-dry-run loop when the first `k` steps continue and
step `k` (0-based) breaks: exactly `k + 1` trace entries, `k` SUCCESS,
one FAILURE, no SKIPPED. -/
theorem execSteps_counts (reg : Registry) :
    ∀ (steps : List Step) (souts : List (String × Value)) (k : Nat)
      (hk : k < steps.length),
    (∀ i, (hi : i < k) →
      (execStep reg (stateAt reg steps souts i)
        (steps.get ⟨i, Nat.lt_trans hi hk⟩)).halt = false) →
    (execStep reg (stateAt reg steps souts k) (steps.get ⟨k, hk⟩)).halt = true →
    (execSteps reg false steps souts).1.length = k + 1 ∧
    (execSteps reg false steps souts).1.countP
      (fun t => t.status = StepStatus.SUCCESS) = k ∧
    (execSteps reg false steps souts).1.countP
      (fun t => t.status = StepStatus.FAILURE) = 1 ∧
    (execSteps reg false steps souts).1.countP
      (fun t => t.status = StepStatus.SKIPPED) = 0 := by
  intro steps
  induction steps with
  | nil =>
      intro souts k hk
      exact absurd hk (by simp)
  | cons s rest ih =>
      intro souts k hk hsucc hfail
      cases k with
      | zero =>
          have hf : (execStep reg souts s).halt = true := hfail
          have hst : (execStep reg souts s).trace.status = StepStatus.FAILURE := by
            rcases execStep_halt_status reg souts s with ⟨h1, _⟩ | ⟨_, h2⟩
            · rw [hf] at h1; cases h1
            · exact h2
          simp [execSteps, hf, hst]
      | succ k =>
          have h0 : (execStep reg souts s).halt = false :=
            hsucc 0 (Nat.succ_pos k)
          have hst : (execStep reg souts s).trace.status = StepStatus.SUCCESS := by
            rcases execStep_halt_status reg souts s with ⟨_, h2⟩ | ⟨h1, _⟩
            · exact h2
            · rw [h0] at h1; cases h1
          have hk' : k < rest.length := Nat.lt_of_succ_lt_succ hk
          have hrec := ih (applyRecord souts (execStep reg souts s).record) k hk'
            (fun i hi => hsucc (i + 1) (Nat.succ_lt_succ hi))
            hfail
          simp [execSteps, h0, hst, hrec.1, hrec.2.1, hrec.2.2.1, hrec.2.2.2]

/-- C1 (counterexample): on a two-step plan whose first step fails
(`N = 2`, `k = 0`), the finalized result reports `skipped_steps = 0`,
not `N - k - 1 = 1` as the claim states — unexecuted steps receive no
trace entry and are never counted as skipped. -/
theorem c1_counterexample :
    (executePlan regFail [] planTwo false).1.successful_steps = 0 ∧
    (executePlan regFail [] planTwo false).1.failed_steps = 1 ∧
    (executePlan regFail [] planTwo false).1.overall_status = StepStatus.FAILURE ∧
    planTwo.steps.length - 0 - 1 = 1 ∧
    (executePlan regFail [] planTwo false).1.skipped_steps ≠
      planTwo.steps.length - 0 - 1 := by
  refine ⟨rfl, rfl, rfl, rfl, ?_⟩
  have h : (executePlan regFail [] planTwo false).1.skipped_steps = 0 := rfl
  rw [h]
  decide

/-- C1 (amended): for every plan whose steps `1..k` succeed and whose
step `k+1` fails, the finalized result has `successful_steps = k`,
`failed_steps = 1`, `skipped_steps = 0` (not `N - k - 1`: steps after the
failure get no trace entry and none is ever marked SKIPPED),
`overall_status = FAILURE`, and exactly `k + 1` trace entries, so steps
`k+2..N` never execute. -/
theorem c1_stop_on_failure (reg : Registry) (souts : List (String × Value))
    (g rl : String) (steps : List Step) (k : Nat) (hk : k < steps.length)
    (hsucc : ∀ i, (hi : i < k) →
      (execStep reg (stateAt reg steps souts i)
        (steps.get ⟨i, Nat.lt_trans hi hk⟩)).halt = false)
    (hfail : (execStep reg (stateAt reg steps souts k)
      (steps.get ⟨k, hk⟩)).halt = true) :
    (executePlan reg souts ⟨g, rl, steps⟩ false).1.successful_steps = k ∧
    (executePlan reg souts ⟨g, rl, steps⟩ false).1.failed_steps = 1 ∧
    (executePlan reg souts ⟨g, rl, steps⟩ false).1.skipped_steps = 0 ∧
    (executePlan reg souts ⟨g, rl, steps⟩ false).1.overall_status =
      StepStatus.FAILURE ∧
    (executePlan reg souts ⟨g, rl, steps⟩ false).1.traces.length = k + 1 := by
  have h := execSteps_counts reg steps souts k hk hsucc hfail
  refine ⟨?_, ?_, ?_, ?_, ?_⟩ <;>
    simp [executePlan, finalize, h.1, h.2.1, h.2.2.1, h.2.2.2]

/-- C1 (witness): the amended statement at a concrete three-step plan
whose second step fails (`N = 3`, `k = 1`). -/
theorem c1_stop_on_failure_witness :
    (executePlan regMix [] planMix false).1.successful_steps = 1 ∧
    (executePlan regMix [] planMix false).1.failed_steps = 1 ∧
    (executePlan regMix [] planMix false).1.skipped_steps = 0 ∧
    (executePlan regMix [] planMix false).1.overall_status = StepStatus.FAILURE ∧
    (executePlan regMix [] planMix false).1.traces.length = 2 :=
  c1_stop_on_failure regMix [] "g" "low" planMix.steps 1 (by decide)
    (fun i hi => match i, hi with | 0, _ => rfl)
    rfl

/-- C3: the step-output dictionary is executor-lifetime state, not
per-call state — after plan A records `{content: "Hello"}` under step id
`1`, the next `execute_plan` call on the same executor starts with that
entry still present, and plan B's `ref:step:1` resolves to plan A's
output (the echo tool's trace shows the substituted value `"Hello"`). -/
theorem c3_cross_plan_leak :
    (executePlan regLeak [] planLeakA false).2 =
      [("1", Value.dict [("content", Value.str "Hello")])] ∧
    (executePlan regLeak (executePlan regLeak [] planLeakA false).2
        planLeakB false).1.traces.map (fun t => t.outputs) =
      [some (Value.dict [("x", Value.str "Hello")])] :=
  ⟨rfl, rfl⟩

/-- C4: `_resolve_inputs` on a reference-free mapping that nests a dict
inside a list under a key other than the literal string `"k"` raises
`KeyError('k')` (the list branch indexes `_resolve_inputs({k: v})` with
the literal key `"k"`), instead of returning the mapping unchanged. -/
theorem c4_keyerror_on_list_dict :
    resolveInputs [] [("items", Value.list [Value.dict [("a", Value.int 1)]])] =
      Except.error "'k'" :=
  rfl

/-- C5: a `ref:step:1.output` reference is parsed by `split(":")` into
step id `"1.output"`, which is not a recorded id, so the documented
`.output` form is left verbatim even though step `1` recorded
`{content: "Hello"}`; the bare `ref:step:1` form does substitute
`"Hello"`. -/
theorem c5_output_suffix_not_resolved :
    resolveInputs [("1", Value.dict [("content", Value.str "Hello")])]
        [("x", Value.str "ref:step:1.output")] =
      Except.ok [("x", Value.str "ref:step:1.output")] ∧
    resolveInputs [("1", Value.dict [("content", Value.str "Hello")])]
        [("x", Value.str "ref:step:1")] =
      Except.ok [("x", Value.str "Hello")] :=
  ⟨rfl, rfl⟩

/-- C9: executing a plan with no steps yields `total_steps = 0`, all
counters `0`, an empty trace list, and `overall_status = SUCCESS`
(`finalize` takes the `successful == total` branch at `0 == 0`). -/
theorem c9_empty_plan (reg : Registry) (souts : List (String × Value))
    (g rl : String) (dryRun : Bool) :
    (executePlan reg souts ⟨g, rl, []⟩ dryRun).1.total_steps = 0 ∧
    (executePlan reg souts ⟨g, rl, []⟩ dryRun).1.successful_steps = 0 ∧
    (executePlan reg souts ⟨g, rl, []⟩ dryRun).1.failed_steps = 0 ∧
    (executePlan reg souts ⟨g, rl, []⟩ dryRun).1.skipped_steps = 0 ∧
    (executePlan reg souts ⟨g, rl, []⟩ dryRun).1.traces = [] ∧
    (executePlan reg souts ⟨g, rl, []⟩ dryRun).1.overall_status =
      StepStatus.SUCCESS :=
  ⟨rfl, rfl, rfl, rfl, rfl, rfl⟩

/-- C7: every step-level failure is captured at the per-step boundary and
converted into a FAILURE trace carrying the error message — a tool
returning a failed `ToolOutput` (with `error or "Unknown error"`), a tool
name absent from the registry (the raised `ValueError` text), and an
exception raised inside a tool; `execute_plan` itself returns normally,
with any FAILURE trace forcing `overall_status = FAILURE`. -/
theorem c7_failures_converted_to_traces (reg : Registry)
    (souts : List (String × Value)) (step : Step) :
    (∀ resolved b output, resolveInputs souts step.inputs = Except.ok resolved →
      lookupReg reg step.tool = some b → b resolved = ToolResult.ret output →
      output.success = false →
      execStep reg souts step =
        ⟨failTrace step (errorOrUnknown output.error),
          some (step.id, output.data), Option.none, true⟩) ∧
    (∀ resolved, resolveInputs souts step.inputs = Except.ok resolved →
      lookupReg reg step.tool = Option.none →
      execStep reg souts step =
        ⟨failTrace step ("Tool '" ++ step.tool ++ "' not found in registry"),
          Option.none, Option.none, true⟩) ∧
    (∀ resolved b msg, resolveInputs souts step.inputs = Except.ok resolved →
      lookupReg reg step.tool = some b → b resolved = ToolResult.exn msg →
      execStep reg souts step =
        ⟨failTrace step msg, Option.none, Option.none, true⟩) ∧
    (∀ (s : Step) (e : String), (failTrace s e).status = StepStatus.FAILURE ∧
      (failTrace s e).error = some e) ∧
    (∀ (plan : Plan) (dryRun : Bool) (t : TraceEntry),
      t ∈ (executePlan reg souts plan dryRun).1.traces →
      t.status = StepStatus.FAILURE →
      (executePlan reg souts plan dryRun).1.overall_status =
        StepStatus.FAILURE) := by
  refine ⟨?_, ?_, ?_, ?_, ?_⟩
  · intro resolved b output h1 h2 h3 h4
    simp [execStep, h1, h2, h3, h4]
  · intro resolved h1 h2
    simp [execStep, h1, h2]
  · intro resolved b msg h1 h2 h3
    simp [execStep, h1, h2, h3]
  · intro s e
    exact ⟨rfl, rfl⟩
  · intro plan dryRun t ht hstatus
    simp only [executePlan, finalize] at ht ⊢
    have hpos : 0 < List.countP
        (fun t => decide (t.status = StepStatus.FAILURE))
        (execSteps reg dryRun plan.steps souts).1 :=
      List.countP_pos_iff.mpr ⟨t, ht, by simp [hstatus]⟩
    simp [hpos]

/-- C7 (witness): the three failure kinds at concrete inputs — a failed
output, a missing tool, a raised exception — and the resulting overall
FAILURE status. -/
theorem c7_failures_converted_witness :
    execStep regFail [] ⟨"1", "t", []⟩ =
      ⟨failTrace ⟨"1", "t", []⟩ "boom", some ("1", Value.none),
        Option.none, true⟩ ∧
    execStep [] [] ⟨"1", "nosuch", []⟩ =
      ⟨failTrace ⟨"1", "nosuch", []⟩ "Tool 'nosuch' not found in registry",
        Option.none, Option.none, true⟩ ∧
    execStep regMix [] ⟨"1", "boom", []⟩ =
      ⟨failTrace ⟨"1", "boom", []⟩ "kaboom", Option.none, Option.none, true⟩ ∧
    (executePlan regFail [] planOneFail false).1.overall_status =
      StepStatus.FAILURE :=
  ⟨(c7_failures_converted_to_traces regFail [] ⟨"1", "t", []⟩).1
      [] alwaysFail ⟨false, Value.none, some "boom"⟩ rfl rfl rfl rfl,
   (c7_failures_converted_to_traces [] [] ⟨"1", "nosuch", []⟩).2.1 [] rfl rfl,
   (c7_failures_converted_to_traces regMix [] ⟨"1", "boom", []⟩).2.2.1
      [] alwaysThrow "kaboom" rfl rfl rfl,
   (c7_failures_converted_to_traces regFail [] ⟨"1", "t", []⟩).2.2.2.2
      planOneFail false (failTrace ⟨"1", "t", []⟩ "boom")
      (List.Mem.head _) rfl⟩

/-- C2: for each of the three FileTool actions, a path whose resolution
is not under the workspace root is rejected before any filesystem
access: the output fails with the outside-workspace message, the
filesystem is unchanged, and no operation was performed. -/
theorem c2_path_confinement (resolve : String → PathC) (root : PathC)
    (fs : FS) (inputs : List (String × Value)) (action pth : String)
    (hact : lookupD inputs "action" = some (Value.str action))
    (hmem : action = "read_text" ∨ action = "write_text" ∨ action = "list_dir")
    (hpath : lookupD inputs "path" = some (Value.str pth))
    (hw : action = "write_text" →
      (lookupD inputs "content").isSome = true ∧
      validMode ((lookupD inputs "mode").getD (Value.str "overwrite")) = true)
    (hout : root.isPrefixOf (resolve pth) = false) :
    fileExecute resolve root fs inputs =
      (⟨false, Value.none, some (outsideMsg pth root)⟩, fs, []) := by
  rcases hmem with h | h | h
  · subst h
    simp [fileExecute, hact, fileRead, hpath, resolvePathF, hout]
  · subst h
    obtain ⟨hc, hm⟩ := hw rfl
    obtain ⟨cv, hcv⟩ := Option.isSome_iff_exists.mp hc
    simp [fileExecute, hact, fileWrite, hpath, hcv, hm, resolvePathF, hout]
  · subst h
    simp [fileExecute, hact, fileList, hpath, resolvePathF, hout]

/-- C2 (witness): the three actions at a concrete resolution landing on
`/etc/passwd`, outside the `/ws` root. -/
theorem c2_path_confinement_witness :
    fileExecute resolveEvil ["ws"] fsW
        [("action", Value.str "read_text"),
         ("path", Value.str "../../etc/passwd")] =
      (⟨false, Value.none,
        some "Path '../../etc/passwd' is outside workspace root '/ws'"⟩,
        fsW, []) ∧
    fileExecute resolveEvil ["ws"] fsW
        [("action", Value.str "write_text"), ("path", Value.str "/etc/passwd"),
         ("content", Value.str "pwned")] =
      (⟨false, Value.none,
        some "Path '/etc/passwd' is outside workspace root '/ws'"⟩, fsW, []) ∧
    fileExecute resolveEvil ["ws"] fsW
        [("action", Value.str "list_dir"), ("path", Value.str "../etc")] =
      (⟨false, Value.none,
        some "Path '../etc' is outside workspace root '/ws'"⟩, fsW, []) :=
  ⟨c2_path_confinement resolveEvil ["ws"] fsW _ "read_text" "../../etc/passwd"
      rfl (Or.inl rfl) rfl (fun h => absurd h (by decide)) rfl,
   c2_path_confinement resolveEvil ["ws"] fsW _ "write_text" "/etc/passwd"
      rfl (Or.inr (Or.inl rfl)) rfl (fun _ => ⟨rfl, rfl⟩) rfl,
   c2_path_confinement resolveEvil ["ws"] fsW _ "list_dir" "../etc"
      rfl (Or.inr (Or.inr rfl)) rfl (fun h => absurd h (by decide)) rfl⟩

/-- Every character costs at least one UTF-8 byte. -/
theorem utf8CharSize_pos (c : Char) : 1 ≤ utf8CharSize c := by
  unfold utf8CharSize
  split_ifs <;> omega

/-- A character below 128 costs exactly one UTF-8 byte. -/
theorem utf8CharSize_ascii (c : Char) (h : c.toNat < 128) :
    utf8CharSize c = 1 := by
  unfold utf8CharSize
  rw [if_pos h]

/-- A character at or above 128 costs at least two UTF-8 bytes. -/
theorem utf8CharSize_multibyte (c : Char) (h : 128 ≤ c.toNat) :
    2 ≤ utf8CharSize c := by
  unfold utf8CharSize
  split_ifs <;> omega

/-- The UTF-8 byte count of a character list is at least its length. -/
theorem utf8_sum_ge_length (l : List Char) :
    l.length ≤ (l.map utf8CharSize).sum := by
  induction l with
  | nil => simp
  | cons c cs ih =>
      have := utf8CharSize_pos c
      simp only [List.map_cons, List.sum_cons, List.length_cons]
      omega

/-- All-ASCII character lists cost exactly one byte per character. -/
theorem utf8_sum_ascii (l : List Char) (h : ∀ ch ∈ l, ch.toNat < 128) :
    (l.map utf8CharSize).sum = l.length := by
  induction l with
  | nil => rfl
  | cons c cs ih =>
      have h1 : utf8CharSize c = 1 := utf8CharSize_ascii c (h c (List.Mem.head _))
      have h2 := ih (fun x hx => h x (List.Mem.tail _ hx))
      simp only [List.map_cons, List.sum_cons, List.length_cons]
      omega

/-- A character list containing a non-ASCII character costs strictly
more bytes than characters. -/
theorem utf8_sum_multibyte (l : List Char) (h : ∃ ch ∈ l, 128 ≤ ch.toNat) :
    l.length < (l.map utf8CharSize).sum := by
  induction l with
  | nil => obtain ⟨ch, hmem, _⟩ := h; cases hmem
  | cons x cs ih =>
      obtain ⟨ch, hmem, hch⟩ := h
      rcases List.mem_cons.mp hmem with hx | hx
      · subst hx
        have h2 := utf8CharSize_multibyte ch hch
        have h3 := utf8_sum_ge_length cs
        simp only [List.map_cons, List.sum_cons, List.length_cons]
        omega
      · have := ih ⟨ch, hx, hch⟩
        have h1 := utf8CharSize_pos x
        simp only [List.map_cons, List.sum_cons, List.length_cons]
        omega

/-- Inversion for an accepted `_resolve_path`: the result is the
resolved path and the root was a prefix of it. -/
theorem resolvePathF_ok (resolve : String → PathC) (root : PathC)
    (p : String) (rp : PathC)
    (h : resolvePathF resolve root p = Except.ok rp) :
    rp = resolve p ∧ root.isPrefixOf (resolve p) = true := by
  unfold resolvePathF at h
  split at h
  · cases h; exact ⟨rfl, by assumption⟩
  · cases h

/-- C10: on any successful `write_text`, the returned data is the
resolved path together with `bytes_written` equal to the UTF-8 byte
count of the content; for all-ASCII content that count equals the
character count, and any character at or above U+0080 makes it strictly
larger. -/
theorem c10_bytes_written_utf8 (resolve : String → PathC) (root : PathC)
    (fs : FS) (inputs : List (String × Value)) (pth c : String)
    (hact : lookupD inputs "action" = some (Value.str "write_text"))
    (hpath : lookupD inputs "path" = some (Value.str pth))
    (hcont : lookupD inputs "content" = some (Value.str c))
    (hsucc : (fileExecute resolve root fs inputs).1.success = true) :
    (fileExecute resolve root fs inputs).1.data =
      Value.dict [("path", Value.str (joinPath (resolve pth))),
                  ("bytes_written", Value.int (utf8Len c))] ∧
    (∀ s : String, (∀ ch ∈ s.data, ch.toNat < 128) → utf8Len s = s.length) ∧
    (∀ s : String, (∃ ch ∈ s.data, 128 ≤ ch.toNat) → s.length < utf8Len s) := by
  refine ⟨?_, fun s h => utf8_sum_ascii s.data h,
    fun s h => utf8_sum_multibyte s.data h⟩
  revert hsucc
  simp only [fileExecute, hact, fileWrite, hpath, hcont]
  by_cases hm : (!validMode ((lookupD inputs "mode").getD
      (Value.str "overwrite"))) = true
  · rw [if_pos hm]
    intro hsucc
    exact absurd hsucc (by simp)
  · rw [if_neg hm]
    split
    · intro hsucc
      exact absurd hsucc (by simp)
    · rename_i rp heq
      split
      · intro hsucc
        exact absurd hsucc (by simp)
      · intro _
        obtain ⟨hrp, _⟩ := resolvePathF_ok resolve root pth rp heq
        subst hrp
        rfl

/-- C10 (witness): writing the five-character content `"héllo"`
(6 UTF-8 bytes) succeeds and reports `bytes_written = 6`. -/
theorem c10_bytes_written_witness :
    (fileExecute resolveW ["ws"] fsW
        [("action", Value.str "write_text"), ("path", Value.str "o.txt"),
         ("content", Value.str "héllo")]).1.data =
      Value.dict [("path", Value.str "/ws/o.txt"),
                  ("bytes_written", Value.int 6)] :=
  (c10_bytes_written_utf8 resolveW ["ws"] fsW
    [("action", Value.str "write_text"), ("path", Value.str "o.txt"),
     ("content", Value.str "héllo")] "o.txt" "héllo" rfl rfl rfl rfl).1

/-- C6: a command whose base token is deny-listed is rejected with the
"blacklisted" error and the subprocess is never launched, for every
allow-list — in particular when the base token is also allow-listed. -/
theorem c6_blacklist_precedence (wl bl : List String)
    (runner : String → Value → ProcResult) (inputs : List (String × Value))
    (cmd base : String) (rest : List String)
    (hcmd : lookupD inputs "cmd" = some (Value.str cmd))
    (hsplit : shlexSplit cmd = Except.ok (base :: rest))
    (hbl : base ∈ bl) :
    shellExecute wl bl runner inputs =
      (ToolResult.ret ⟨false, Value.none,
        some ("Command '" ++ base ++ "' is not allowed (blacklisted)")⟩,
        false) := by
  simp [shellExecute, hcmd, hsplit, hbl]

/-- C6 (witness): `rm` present in both lists is still rejected as
blacklisted. -/
theorem c6_blacklist_precedence_witness :
    shellExecute ["ls", "rm"] ["rm"] runnerExit1
        [("cmd", Value.str "rm -rf /tmp/x")] =
      (ToolResult.ret ⟨false, Value.none,
        some "Command 'rm' is not allowed (blacklisted)"⟩, false) ∧
    "rm" ∈ ["ls", "rm"] :=
  ⟨c6_blacklist_precedence ["ls", "rm"] ["rm"] runnerExit1 _
      "rm -rf /tmp/x" "rm" ["-rf", "/tmp/x"] rfl rfl (by decide),
   by decide⟩

/-- C8: a command passing the deny-list, allow-list and dangerous-pattern
checks that runs to completion yields `success = (returncode == 0)`,
data `{stdout, stderr, return_code, command}`, and `error = stderr`
exactly on nonzero exit; a timeout yields the distinct "timed out"
failure. -/
theorem c8_completion_semantics (wl bl : List String)
    (runner : String → Value → ProcResult) (inputs : List (String × Value))
    (cmd base : String) (rest : List String)
    (hcmd : lookupD inputs "cmd" = some (Value.str cmd))
    (hsplit : shlexSplit cmd = Except.ok (base :: rest))
    (hnb : base ∉ bl) (hwl : base ∈ wl)
    (hdp : dangerousPatterns.find?
      (fun pat => pyContains (pyLower cmd) pat) = Option.none) :
    (∀ out err rc,
      runner cmd ((lookupD inputs "timeout").getD (Value.int 30)) =
        ProcResult.completed out err rc →
      shellExecute wl bl runner inputs =
        (ToolResult.ret ⟨rc == 0,
          Value.dict [("stdout", Value.str out), ("stderr", Value.str err),
                      ("return_code", Value.int rc),
                      ("command", Value.str cmd)],
          if rc ≠ 0 then some err else Option.none⟩, true)) ∧
    (runner cmd ((lookupD inputs "timeout").getD (Value.int 30)) =
        ProcResult.timedOut →
      shellExecute wl bl runner inputs =
        (ToolResult.ret ⟨false, Value.none,
          some ("Command timed out after " ++
            pyStr ((lookupD inputs "timeout").getD (Value.int 30)) ++
            " seconds")⟩, true)) := by
  constructor
  · intro out err rc hrun
    simp [shellExecute, hcmd, hsplit, hnb, hwl, hdp, hrun]
  · intro hrun
    simp [shellExecute, hcmd, hsplit, hnb, hwl, hdp, hrun]

/-- C8 (witness): `ls -la` completing with exit code 1 reports
`success = false`, the captured streams, and `error = stderr`; the same
command timing out reports the "timed out" failure. -/
theorem c8_completion_semantics_witness :
    shellExecute ["ls"] [] runnerExit1 [("cmd", Value.str "ls -la")] =
      (ToolResult.ret ⟨false,
        Value.dict [("stdout", Value.str "out"), ("stderr", Value.str "err"),
                    ("return_code", Value.int 1),
                    ("command", Value.str "ls -la")],
        some "err"⟩, true) ∧
    shellExecute ["ls"] [] runnerTimeout [("cmd", Value.str "ls -la")] =
      (ToolResult.ret ⟨false, Value.none,
        some "Command timed out after 30 seconds"⟩, true) :=
  ⟨(c8_completion_semantics ["ls"] [] runnerExit1
      [("cmd", Value.str "ls -la")] "ls -la" "ls" ["-la"]
      rfl rfl (by decide) (by decide) rfl).1 "out" "err" 1 rfl,
   (c8_completion_semantics ["ls"] [] runnerTimeout
      [("cmd", Value.str "ls -la")] "ls -la" "ls" ["-la"]
      rfl rfl (by decide) (by decide) rfl).2 rfl⟩

end OpenManus
